import Mathlib

/-!
Verification development for the Laundry countdown-timer firmware:
a debounced push-button event classifier (`SwitchControl`) and a
finite-state machine (`Machine` with five `State` variants) driving a
10-segment LED bar.  Definitions are shallow embeddings of the C++
sources `SwitchControl.cpp` / `FSM.cpp`; machine integers
(`unsigned long`, 32 bits on the target) are modelled as `Nat` with
explicit wraparound-safe subtraction `sub32`.
-/

namespace Laundry

/-- Word size of `unsigned long` on the target (32-bit AVR/ARM Arduino). -/
def W : Nat := 2 ^ 32

/-- Wraparound-safe unsigned subtraction, the meaning of `a - b` on
`unsigned long` values (both operands below `W`). -/
def sub32 (a b : Nat) : Nat := (a + W - b) % W

/-- When no wraparound occurs, `sub32` is plain subtraction. -/
theorem sub32_eq_sub (a b : Nat) (hba : b ≤ a) (h : a - b < W) :
    sub32 a b = a - b := by
  unfold sub32
  have h1 : a + W - b = (a - b) + W := by omega
  rw [h1, Nat.add_mod_right]
  exact Nat.mod_eq_of_lt h

/-- The events reported by `SwitchControl::update` (SwitchControl.h). -/
inductive Event where
  | EVENT_NONE
  | EVENT_PRESSED
  | EVENT_LONGPRESS
  | EVENT_RELEASED
deriving DecidableEq, Repr

open Event

/-- The mutable state of a `SwitchControl` object (SwitchControl.h).
`switch_state`/`last_state` are the committed and the raw-sample levels
(`true` = HIGH = pressed); the timestamps are values of the `millis()`
counter. -/
structure SwitchControl where
  switch_state : Bool
  in_longpress : Bool
  last_press : Nat
  last_release : Nat
  last_state : Bool
  last_debounce : Nat
  debounce_time : Nat
  longpress_time : Nat
deriving DecidableEq, Repr

/-- Embedding of `SwitchControl::update` (SwitchControl.cpp lines 50-91):
one poll tick, taking the raw level read from the pin and the current
`millis()` value, returning the updated object and the event for this tick.
The structure mirrors the source exactly: debounce-timer reset, then (behind
the debounce gate) the commit branch followed by the longpress check (which
reads the fields as updated by the commit branch), then `last_state` is
recorded. -/
def SwitchControl.update (s : SwitchControl) (raw : Bool) (now : Nat) :
    SwitchControl × Event :=
  -- if (current_state != last_state) last_debounce = millis();
  let ld := if raw ≠ s.last_state then now else s.last_debounce
  let s0 := { s with last_debounce := ld }
  -- if ((millis() - last_debounce) > debounce_time)
  if sub32 now ld > s0.debounce_time then
    -- if (current_state != switch_state) { switch_state = current_state; ... }
    let p1 : SwitchControl × Event :=
      if raw ≠ s0.switch_state then
        if raw then
          ({ s0 with switch_state := raw, last_press := now }, EVENT_PRESSED)
        else
          ({ s0 with switch_state := raw, in_longpress := false,
                     last_release := now }, EVENT_RELEASED)
      else (s0, EVENT_NONE)
    -- if (!in_longpress && switch_state == HIGH && millis() - last_press > longpress_time)
    let p2 : SwitchControl × Event :=
      if p1.1.in_longpress = false ∧ p1.1.switch_state = true ∧
          sub32 now p1.1.last_press > p1.1.longpress_time then
        ({ p1.1 with in_longpress := true }, EVENT_LONGPRESS)
      else p1
    ({ p2.1 with last_state := raw }, p2.2)
  else
    ({ s0 with last_state := raw }, EVENT_NONE)

/-- Embedding of `SwitchControl::is_pressed` (SwitchControl.h). -/
def SwitchControl.is_pressed (s : SwitchControl) : Bool := s.switch_state

/-- Embedding of `SwitchControl::time_since_pressed` (SwitchControl.h). -/
def SwitchControl.time_since_pressed (s : SwitchControl) (now : Nat) : Nat :=
  sub32 now s.last_press

/-- Embedding of `SwitchControl::time_since_released` (SwitchControl.h). -/
def SwitchControl.time_since_released (s : SwitchControl) (now : Nat) : Nat :=
  sub32 now s.last_release

/-- Run a sequence of poll ticks, each a `(millis, raw-level)` pair,
collecting the emitted events. -/
def SwitchControl.run (s : SwitchControl) :
    List (Nat × Bool) → SwitchControl × List Event
  | [] => (s, [])
  | (now, raw) :: rest =>
    let r := s.update raw now
    let q := SwitchControl.run r.1 rest
    (q.1, r.2 :: q.2)

/-- The committed level is pressed before, between, and after every tick of
the sequence. -/
def SwitchControl.pressedDuring (s : SwitchControl) : List (Nat × Bool) → Bool
  | [] => s.switch_state
  | (now, raw) :: rest =>
    s.switch_state && SwitchControl.pressedDuring (s.update raw now).1 rest

/-- Every tick of the sequence happens strictly within the debounce window of
the most recent raw-level change: the run of equal raw samples containing each
tick has, at that tick, lasted strictly less than `debounce_time`.
(`last_debounce` is exactly the timestamp of the most recent raw flip.) -/
def SwitchControl.noisy (s : SwitchControl) : List (Nat × Bool) → Bool
  | [] => true
  | (now, raw) :: rest =>
    let ld := if raw ≠ s.last_state then now else s.last_debounce
    decide (sub32 now ld < s.debounce_time) &&
      SwitchControl.noisy (s.update raw now).1 rest

/-- Number of `EVENT_LONGPRESS` entries in a list of emitted events. -/
def countLongpress (es : List Event) : Nat :=
  es.countP (fun e => decide (e = EVENT_LONGPRESS))

/-- The state identifiers of the FSM (FSM.h, `State::StateID`).
`STATE_MAX` is the end-of-enum convenience value, never a real state. -/
inductive StateID where
  | STATE_NONE
  | STATE_OFF
  | STATE_STARTUP
  | STATE_PROGRAM
  | STATE_TIMER
  | STATE_WAIT
  | STATE_MAX
deriving DecidableEq, Repr

open StateID

/-- Numeric value of a `StateID` in the C enum. -/
def StateID.toNat : StateID → Nat
  | STATE_NONE => 0
  | STATE_OFF => 1
  | STATE_STARTUP => 2
  | STATE_PROGRAM => 3
  | STATE_TIMER => 4
  | STATE_WAIT => 5
  | STATE_MAX => 6

/-- Embedding of the base `State::update` (FSM.cpp lines 36-45): a longpress
always requests `STATE_OFF`, from any state; otherwise the `STATE_NONE`
sentinel means "no change". -/
def State.update (event : Event) : StateID :=
  if event = EVENT_LONGPRESS then STATE_OFF else STATE_NONE

/-- Embedding of `State::state_time` (FSM.h): `millis() - state_start_time`. -/
def State.state_time (now state_start_time : Nat) : Nat :=
  sub32 now state_start_time

/-- The LED bar output: brightness (0-255) of each of the 10 segments,
head of the list first. -/
abbrev Bar := List Nat

/-- Modelled from the spec: the `Grove_LED_Bar::setLevel` collaborator is
external to this repository; per spec section 6 it lights the first `n` of the
10 segments at full brightness and turns the rest off (so a level beyond the
bar's capacity lights all 10 segments). -/
def setLevel (n : Nat) : Bar :=
  (List.range 10).map (fun i => if i < n then 255 else 0)

/-- Modelled from the spec: `Grove_LED_Bar::setLeds` sets each segment's
individual brightness in one update. -/
def setLeds (leds : List Nat) : Bar := leds

/-- State owned by `OffState` (FSM.h): just the base-class entry timestamp. -/
structure OffState where
  state_start_time : Nat
deriving DecidableEq, Repr

/-- Embedding of `OffState::enter` (FSM.cpp lines 52-59): record the entry
time, clear the bar, turn the button LED off.  Returns the new state, the bar
contents and the button-LED level. -/
def OffState.enter (now : Nat) : OffState × Bar × Bool :=
  ({ state_start_time := now }, setLevel 0, false)

/-- Embedding of `OffState::update` (FSM.cpp lines 61-74): base rule first,
then wake up to `STATE_STARTUP` on a press. -/
def OffState.update (event : Event) : StateID :=
  let newstate := State.update event
  if newstate ≠ STATE_NONE then newstate
  else if event = EVENT_PRESSED then STATE_STARTUP
  else STATE_NONE

/-- State owned by `StartupState` (FSM.h). -/
structure StartupState where
  state_start_time : Nat
deriving DecidableEq, Repr

/-- Embedding of `StartupState::enter` (FSM.cpp lines 81-87): record the
entry time and turn the button LED on. -/
def StartupState.enter (now : Nat) : StartupState × Bool :=
  ({ state_start_time := now }, true)

/-- Embedding of `StartupState::update` (FSM.cpp lines 89-105): base rule
first; after 1500 ms request `STATE_PROGRAM`; before that, fill the bar to
`(state_time() + 10) / 100` (the sum cannot wrap: `state_time()` is below
1500 in the branch where the expression is evaluated). -/
def StartupState.update (s : StartupState) (event : Event) (now : Nat)
    (bar : Bar) : StateID × Bar :=
  let newstate := State.update event
  if newstate ≠ STATE_NONE then (newstate, bar)
  else if State.state_time now s.state_start_time ≥ 1500 then
    (STATE_PROGRAM, bar)
  else
    (STATE_NONE, setLevel ((State.state_time now s.state_start_time + 10) / 100))

/-- State owned by `ProgramState` (FSM.h): entry timestamp, selected segment
count `program_time`, and the constructor parameter `bar_time` (seconds per
segment, default 1800). -/
structure ProgramState where
  state_start_time : Nat
  program_time : Nat
  bar_time : Nat
deriving DecidableEq, Repr

/-- `ProgramState::hold_time` (FSM.h line 155). -/
def ProgramState.hold_time : Nat := 2000

/-- `ProgramState::timeout` (FSM.h line 156). -/
def ProgramState.timeout : Nat := 4500

/-- Embedding of `ProgramState::enter` (FSM.cpp lines 112-119): record the
entry time, seed the bar at one segment, reset the counter to 1. -/
def ProgramState.enter (s : ProgramState) (now : Nat) : ProgramState × Bar :=
  ({ s with state_start_time := now, program_time := 1 }, setLevel 1)

/-- Embedding of `ProgramState::update` (FSM.cpp lines 121-159): base rule
first; a press increments the counter with wrap above 10 and renders it; after
`hold_time` of no press/release activity the bar blinks, and once the release
has lasted beyond `timeout` the shared `*total_time` is written as
`program_time * (bar_time * 1000)` in `unsigned long` arithmetic and
`STATE_TIMER` is requested.  Returns the new state, the requested `StateID`,
the bar, and the (possibly rewritten) shared `total_time`. -/
def ProgramState.update (s : ProgramState) (event : Event) (now : Nat)
    (button : SwitchControl) (bar : Bar) (total_time : Nat) :
    ProgramState × StateID × Bar × Nat :=
  let newstate := State.update event
  if newstate ≠ STATE_NONE then (s, newstate, bar, total_time)
  else
    let s1 := if event = EVENT_PRESSED then
        { s with program_time :=
            if s.program_time + 1 > 10 then 1 else s.program_time + 1 }
      else s
    let bar1 := if event = EVENT_PRESSED then setLevel s1.program_time else bar
    let released := button.time_since_released now
    if button.time_since_pressed now > ProgramState.hold_time ∧
        released > ProgramState.hold_time then
      let bar2 := if ((released - ProgramState.hold_time) / 250) % 2 = 1 then
          setLevel 0
        else setLevel s1.program_time
      if released > ProgramState.timeout then
        (s1, STATE_TIMER, bar2, (s1.program_time * ((s.bar_time * 1000) % W)) % W)
      else (s1, STATE_NONE, bar2, total_time)
    else (s1, STATE_NONE, bar1, total_time)

/-- State owned by `TimerState` (FSM.h): entry timestamp and the last display
refresh time. -/
structure TimerState where
  state_start_time : Nat
  last_update : Nat
deriving DecidableEq, Repr

/-- Embedding of `TimerState::enter` (FSM.cpp lines 166-172). -/
def TimerState.enter (s : TimerState) (now : Nat) : TimerState × Bar :=
  ({ s with state_start_time := now, last_update := 0 }, setLevel 0)

/-- Embedding of `TimerState::update` (FSM.cpp lines 174-194): base rule
first; at most every 500 ms refresh the display; request `STATE_WAIT` once
`state_time() > *total_time`.  The refresh (line 185) writes
`led_bar.setLevel((float)state_time() / ((float)(*total_time) / 10.0f))`:
that level is computed in single-precision floating point, which this
development does not model, so no integer stand-in is invented for it.
Instead the write is recorded exactly, as the pair of integer inputs
`(state_time(), *total_time)` that determine the float expression, in the
last component of the result; the `Bar` component carries the display
contents as of the last integer-level write.  No claim under verification
mentions the rendered countdown level. -/
def TimerState.update (s : TimerState) (event : Event) (now : Nat)
    (total_time : Nat) (bar : Bar) :
    TimerState × StateID × Bar × Option (Nat × Nat) :=
  let newstate := State.update event
  if newstate ≠ STATE_NONE then (s, newstate, bar, none)
  else
    let refresh := sub32 now s.last_update > 500
    let s1 := if refresh then { s with last_update := now } else s
    let req := if refresh then
        some (State.state_time now s.state_start_time, total_time)
      else none
    if State.state_time now s1.state_start_time > total_time then
      (s1, STATE_WAIT, bar, req)
    else (s1, STATE_NONE, bar, req)

/-- State owned by `WaitState` (FSM.h): entry timestamp, last sweep-advance
time, sweep head position and direction (C `int`s). -/
structure WaitState where
  state_start_time : Nat
  last_update : Nat
  sweep_led : Int
  sweep_dir : Int
deriving DecidableEq, Repr

/-- The loop body iteration of `WaitState::sweep_leds` (FSM.cpp lines
212-234), structurally recursive on a fuel argument.  `level` is divided by 3
each pass and the loop runs while `level > 0`, so any fuel of at least the
initial `level` lets the recursion reach the `level = 0` exit; the fuel-0 case
is never the one that returns in those conditions.  Writes to `leds` go
through `List.set` at `led.toNat`; the bounce clamps keep `led` within
`[0, 9]` after every move, so with an in-range starting head every write is
in range (proved below). -/
def sweepLoopF : Nat → List Nat → Int → Int → Nat → List Nat
  | 0, leds, _, _, _ => leds
  | fuel + 1, leds, led, dir, level =>
    if level = 0 then leds
    else
      -- if (leds[led] == 0) leds[led] = level;
      let leds1 := if leds.getD led.toNat 1 = 0 then leds.set led.toNat level
        else leds
      -- led += dir;
      let led1 := led + dir
      -- if (led <= 0) { led = 0; dir = 1; }
      let led2 := if led1 ≤ 0 then 0 else led1
      let dir2 := if led1 ≤ 0 then 1 else dir
      -- if (led >= 9) { led = 9; dir = -1; }
      let led3 := if led2 ≥ 9 then 9 else led2
      let dir3 := if led2 ≥ 9 then -1 else dir2
      -- level /= 3;
      sweepLoopF fuel leds1 led3 dir3 (level / 3)

/-- Number of iterations of the `sweep_leds` trail loop as a function of the
starting brightness: how many divisions by 3 until `level` reaches 0 (again
structurally recursive on a fuel argument, with fuel = starting level). -/
def trailStepsF : Nat → Nat → Nat
  | 0, _ => 0
  | fuel + 1, level => if level = 0 then 0 else trailStepsF fuel (level / 3) + 1

/-- Iteration count of the trail loop started at brightness `level`. -/
def trailSteps (level : Nat) : Nat := trailStepsF level level

/-- Embedding of `WaitState::sweep_leds` (FSM.cpp lines 201-238): build the
10-entry trail array from zeros, walking from the head `led` opposite to the
travel direction (`dir *= -1`) with brightness starting at `0xff` and divided
by 3 each step.  Fuel 255 equals the initial level, which bounds the
iteration count. -/
def WaitState.sweep_leds (led : Int) (dir : Int) : List Nat :=
  sweepLoopF 255 (List.replicate 10 0) led (dir * -1) 255

/-- Embedding of `WaitState::enter` (FSM.cpp lines 240-248): record entry
time, reset the sweep to head 0 moving in direction +1, clear the bar. -/
def WaitState.enter (s : WaitState) (now : Nat) : WaitState × Bar :=
  ({ s with state_start_time := now, last_update := now,
            sweep_led := 0, sweep_dir := 1 }, setLevel 0)

/-- Embedding of `WaitState::update` (FSM.cpp lines 251-279): base rule
first; a press restarts at `STATE_STARTUP`; otherwise every 100 ms advance
the sweep head, bouncing the direction at indices 9 and 0, and render the
trail. -/
def WaitState.update (s : WaitState) (event : Event) (now : Nat) (bar : Bar) :
    WaitState × StateID × Bar :=
  let newstate := State.update event
  if newstate ≠ STATE_NONE then (s, newstate, bar)
  else if event = EVENT_PRESSED then (s, STATE_STARTUP, bar)
  else if sub32 now s.last_update > 100 then
    let led := s.sweep_led + s.sweep_dir
    let dir1 := if led = 9 then -1 else s.sweep_dir
    let dir2 := if led = 0 then 1 else dir1
    ({ s with last_update := now, sweep_led := led, sweep_dir := dir2 },
      STATE_NONE, setLeds (WaitState.sweep_leds led dir2))
  else (s, STATE_NONE, bar)

/-- The state machine (FSM.h, class `Machine`) together with everything its
states reach through their references: the five behavior objects (the
`states[]` array holds at most one behavior per id, and `add_state` stores a
behavior at its own `get_id()`, so slot `i` can only ever hold the variant
whose constructor fixes id `i`; `registered id` says whether the slot is
non-null), the shared `*total_time` cell, the LED bar, the button indicator
LED, and the `SwitchControl` the states query for timing.  `timer_render`
records the most recent Timer countdown render request: the integer inputs
of the float level written at FSM.cpp line 185, whose single-precision
arithmetic is not modelled (see `TimerState.update`). -/
structure Machine where
  current_state : StateID
  registered : StateID → Bool
  offS : OffState
  startupS : StartupState
  programS : ProgramState
  timerS : TimerState
  waitS : WaitState
  total_time : Nat
  bar : Bar
  button_led : Bool
  button : SwitchControl
  timer_render : Option (Nat × Nat)

/-- Entry timestamp of the behavior registered for an id (0 for the sentinel
ids, which have no behavior object). -/
def Machine.entry_time (m : Machine) : StateID → Nat
  | STATE_OFF => m.offS.state_start_time
  | STATE_STARTUP => m.startupS.state_start_time
  | STATE_PROGRAM => m.programS.state_start_time
  | STATE_TIMER => m.timerS.state_start_time
  | STATE_WAIT => m.waitS.state_start_time
  | _ => 0

/-- Embedding of `Machine::set_state` (FSM.cpp lines 19-29): move to
`newstate` and run its `enter` hook only when `newstate` differs from the
current state, is not the `STATE_NONE` sentinel, is below `STATE_MAX`, and
has a registered behavior; otherwise do nothing. -/
def Machine.set_state (m : Machine) (newstate : StateID) (now : Nat) : Machine :=
  if newstate ≠ m.current_state ∧ newstate ≠ STATE_NONE ∧
      newstate.toNat < StateID.STATE_MAX.toNat ∧ m.registered newstate = true then
    let m1 := { m with current_state := newstate }
    match newstate with
    | STATE_OFF =>
      let r := OffState.enter now
      { m1 with offS := r.1, bar := r.2.1, button_led := r.2.2 }
    | STATE_STARTUP =>
      let r := StartupState.enter now
      { m1 with startupS := r.1, button_led := r.2 }
    | STATE_PROGRAM =>
      let r := m.programS.enter now
      { m1 with programS := r.1, bar := r.2 }
    | STATE_TIMER =>
      let r := m.timerS.enter now
      { m1 with timerS := r.1, bar := r.2 }
    | STATE_WAIT =>
      let r := m.waitS.enter now
      { m1 with waitS := r.1, bar := r.2 }
    | _ => m1  -- unreachable: the guard excludes STATE_NONE and STATE_MAX
  else m

/-- Embedding of `Machine::update` (FSM.cpp lines 3-9): when the machine is
in a known state with a registered behavior, run that behavior's `update` and
apply the requested transition through `set_state`.  (`STATE_MAX` indexes
past the `states[]` array in the source and is never current in a machine
driven through `set_state`; the model leaves the machine unchanged there.) -/
def Machine.update (m : Machine) (event : Event) (now : Nat) : Machine :=
  if m.current_state ≠ STATE_NONE ∧ m.registered m.current_state = true then
    match m.current_state with
    | STATE_OFF => m.set_state (OffState.update event) now
    | STATE_STARTUP =>
      let r := m.startupS.update event now m.bar
      Machine.set_state { m with bar := r.2 } r.1 now
    | STATE_PROGRAM =>
      let r := m.programS.update event now m.button m.bar m.total_time
      Machine.set_state
        { m with programS := r.1, bar := r.2.2.1, total_time := r.2.2.2 }
        r.2.1 now
    | STATE_TIMER =>
      let r := m.timerS.update event now m.total_time m.bar
      Machine.set_state
        { m with timerS := r.1, bar := r.2.2.1, timer_render := r.2.2.2 }
        r.2.1 now
    | STATE_WAIT =>
      let r := m.waitS.update event now m.bar
      Machine.set_state { m with waitS := r.1, bar := r.2.2 } r.2.1 now
    | _ => m
  else m

/-- Run `ProgramState.update` over a sequence of ticks, each an event, a
`millis()` value and the button's state at that tick, threading the bar and
the shared `total_time`. -/
def ProgramState.run (s : ProgramState) (bar : Bar) (total : Nat) :
    List (Event × Nat × SwitchControl) → ProgramState × Bar × Nat
  | [] => (s, bar, total)
  | (ev, now, btn) :: rest =>
    let r := s.update ev now btn bar total
    ProgramState.run r.1 r.2.2.1 r.2.2.2 rest

/-- Run `WaitState.update` over a sequence of `(event, millis)` ticks,
threading the bar. -/
def WaitState.run (s : WaitState) (bar : Bar) :
    List (Event × Nat) → WaitState × Bar
  | [] => (s, bar)
  | (ev, now) :: rest =>
    let r := s.update ev now bar
    WaitState.run r.1 r.2.2 rest

/-! Helper lemmas. -/

theorem W_eq : W = 4294967296 := by norm_num [W]

theorem sub32_self (a : Nat) : sub32 a a = 0 := by
  unfold sub32
  rw [Nat.add_sub_cancel_left, Nat.mod_self]

/-- A tick on which a level change commits reports the commit event, with a
fresh press never superseded by the longpress check (whose `last_press` was
just reset to `now`). -/
theorem update_commit_event (s : SwitchControl) (raw : Bool) (now : Nat)
    (hdeb : sub32 now (if raw ≠ s.last_state then now else s.last_debounce) >
      s.debounce_time)
    (hch : raw ≠ s.switch_state) :
    ((s.update raw now).2 = if raw then EVENT_PRESSED else EVENT_RELEASED) ∧
    (s.update raw now).1.in_longpress = (if raw then s.in_longpress else false) ∧
    (s.update raw now).1.switch_state = raw := by
  unfold SwitchControl.update
  simp only []
  rw [if_pos hdeb, if_pos hch]
  cases raw with
  | true =>
    have h0 : sub32 now now = 0 := sub32_self now
    simp [h0]
  | false =>
    simp

/-- A tick that emits `EVENT_LONGPRESS` sets the longpress latch. -/
theorem update_longpress_latches (s : SwitchControl) (raw : Bool) (now : Nat)
    (h : (s.update raw now).2 = EVENT_LONGPRESS) :
    (s.update raw now).1.in_longpress = true := by
  unfold SwitchControl.update at *
  simp only [] at *
  split_ifs at * with h1 h2 h3 h4 h5 h6 h7 <;> simp_all

/-- While the latch is set and no release commits (the committed level stays
pressed), the latch stays set and no further longpress is emitted. -/
theorem update_latch_persists (s : SwitchControl) (raw : Bool) (now : Nat)
    (hl : s.in_longpress = true)
    (hp : (s.update raw now).1.switch_state = true) :
    (s.update raw now).1.in_longpress = true ∧
    (s.update raw now).2 ≠ EVENT_LONGPRESS := by
  unfold SwitchControl.update at *
  simp only [] at *
  split_ifs at * with h1 h2 h3 h4 h5 h6 h7 <;> simp_all

/-- A tick after which the committed level is pressed did not emit
`EVENT_RELEASED`. -/
theorem update_no_release_of_pressed (s : SwitchControl) (raw : Bool) (now : Nat)
    (hp : (s.update raw now).1.switch_state = true) :
    (s.update raw now).2 ≠ EVENT_RELEASED := by
  unfold SwitchControl.update at *
  simp only [] at *
  split_ifs at * with h1 h2 h3 h4 h5 h6 h7 <;> simp_all

theorem pressedDuring_head (s : SwitchControl) (l : List (Nat × Bool))
    (h : s.pressedDuring l = true) : s.switch_state = true := by
  cases l with
  | nil => exact h
  | cons t rest =>
    rcases t with ⟨now, raw⟩
    exact (Bool.and_eq_true_iff.mp h).1

/-- Once the latch is set, a run during which the committed level stays
pressed emits no further longpress at all. -/
theorem countLongpress_zero_of_latched :
    ∀ (l : List (Nat × Bool)) (s : SwitchControl), s.in_longpress = true →
      s.pressedDuring l = true → countLongpress (s.run l).2 = 0 := by
  intro l
  induction l with
  | nil => intro s _ _; simp [SwitchControl.run, countLongpress]
  | cons t rest ih =>
    intro s hl hp
    rcases t with ⟨now, raw⟩
    have hp' : (s.update raw now).1.pressedDuring rest = true :=
      (Bool.and_eq_true_iff.mp hp).2
    have hps : (s.update raw now).1.switch_state = true :=
      pressedDuring_head _ _ hp'
    have hkeep := update_latch_persists s raw now hl hps
    simp only [SwitchControl.run, countLongpress, List.countP_cons]
    have hrest := ih (s.update raw now).1 hkeep.1 hp'
    simp [countLongpress] at hrest
    simp [hkeep.2]
    exact hrest

/-- A tick strictly inside the debounce window of the latest raw flip only
re-records bookkeeping fields: no commit, no event. -/
theorem update_within_window (s : SwitchControl) (raw : Bool) (now : Nat)
    (h : sub32 now (if raw ≠ s.last_state then now else s.last_debounce) <
      s.debounce_time) :
    s.update raw now =
      ({ s with last_state := raw,
                last_debounce :=
                  if raw ≠ s.last_state then now else s.last_debounce },
        EVENT_NONE) := by
  unfold SwitchControl.update
  simp only []
  by_cases hls : raw ≠ s.last_state
  · simp only [if_pos hls] at h ⊢
    split_ifs <;> first | rfl | omega
  · simp only [if_neg hls] at h ⊢
    split_ifs <;> first | rfl | omega

/-! Claim theorems C4, C5, C6 (SwitchControl) with their witnesses. -/

/-- C4: every call to `SwitchControl::update` returns exactly one `Event`
value, and on a tick where a level change commits the commit event
(`EVENT_PRESSED`/`EVENT_RELEASED`) is the one returned: it is never replaced
by `EVENT_LONGPRESS`, and for a fresh press the longpress latch is left as it
was, deferring longpress detection to a later tick. -/
theorem poll_single_event_commit_priority (s : SwitchControl) (raw : Bool)
    (now : Nat) :
    ((s.update raw now).2 = EVENT_NONE ∨ (s.update raw now).2 = EVENT_PRESSED ∨
     (s.update raw now).2 = EVENT_LONGPRESS ∨
     (s.update raw now).2 = EVENT_RELEASED) ∧
    (sub32 now (if raw ≠ s.last_state then now else s.last_debounce) >
        s.debounce_time →
     raw ≠ s.switch_state →
       (s.update raw now).2 = (if raw then EVENT_PRESSED else EVENT_RELEASED) ∧
       (s.update raw now).2 ≠ EVENT_LONGPRESS ∧
       (raw = true → (s.update raw now).1.in_longpress = s.in_longpress)) := by
  constructor
  · cases h : (s.update raw now).2 <;> simp
  · intro hdeb hch
    have hc := update_commit_event s raw now hdeb hch
    refine ⟨hc.1, ?_, ?_⟩
    · rw [hc.1]; cases raw <;> simp
    · intro hr
      rw [hc.2.1, hr]
      simp

/-- A sample switch object: raw level stable, debounce window long expired,
raw pressed while the committed level is still released. -/
def swSampleA : SwitchControl :=
  { switch_state := false, in_longpress := false, last_press := 0,
    last_release := 0, last_state := true, last_debounce := 0,
    debounce_time := 50, longpress_time := 3000 }

theorem poll_single_event_commit_priority_witness :
    (swSampleA.update true 100).2 = EVENT_PRESSED ∧
    (swSampleA.update true 100).2 ≠ EVENT_LONGPRESS := by
  have h := (poll_single_event_commit_priority swSampleA true 100).2
    (by decide) (by decide)
  exact ⟨by simpa using h.1, h.2.1⟩

/-- C5: over any sequence of poll ticks during which the committed level
stays pressed, at most one `EVENT_LONGPRESS` is emitted: the latch is cleared
only by a committed release. -/
theorem single_longpress_per_press (s : SwitchControl) (l : List (Nat × Bool))
    (h : s.pressedDuring l = true) :
    countLongpress (s.run l).2 ≤ 1 := by
  induction l generalizing s with
  | nil => simp [SwitchControl.run, countLongpress]
  | cons t rest ih =>
    rcases t with ⟨now, raw⟩
    have hp' : (s.update raw now).1.pressedDuring rest = true :=
      (Bool.and_eq_true_iff.mp h).2
    by_cases hlp : (s.update raw now).2 = EVENT_LONGPRESS
    · have hlat := update_longpress_latches s raw now hlp
      have hzero := countLongpress_zero_of_latched rest (s.update raw now).1
        hlat hp'
      simp only [SwitchControl.run, countLongpress, List.countP_cons] at *
      simp [hlp]
      simpa using hzero
    · have hrest := ih (s.update raw now).1 hp'
      simp only [SwitchControl.run, countLongpress, List.countP_cons] at *
      simp [hlp]
      omega

/-- A sample switch object: committed pressed since `millis() = 0`, raw level
stable high, latch not yet set. -/
def swSampleB : SwitchControl :=
  { switch_state := true, in_longpress := false, last_press := 0,
    last_release := 0, last_state := true, last_debounce := 0,
    debounce_time := 50, longpress_time := 3000 }

theorem single_longpress_per_press_witness :
    swSampleB.pressedDuring [(4000, true), (4100, true)] = true ∧
    countLongpress (swSampleB.run [(4000, true), (4100, true)]).2 = 1 ∧
    countLongpress (swSampleB.run [(4000, true), (4100, true)]).2 ≤ 1 :=
  ⟨by decide, by decide,
    single_longpress_per_press swSampleB [(4000, true), (4100, true)] (by decide)⟩

/-- C6: while every run of equal raw samples stays strictly shorter than the
debounce window, the committed level never changes and no
`EVENT_PRESSED`/`EVENT_RELEASED` is ever emitted. -/
theorem noise_rejection (s : SwitchControl) (l : List (Nat × Bool))
    (h : s.noisy l = true) :
    (s.run l).1.switch_state = s.switch_state ∧
    ∀ e ∈ (s.run l).2, e ≠ EVENT_PRESSED ∧ e ≠ EVENT_RELEASED := by
  induction l generalizing s with
  | nil => simp [SwitchControl.run]
  | cons t rest ih =>
    rcases t with ⟨now, raw⟩
    unfold SwitchControl.noisy at h
    simp only [] at h
    have h1 : sub32 now (if raw ≠ s.last_state then now else s.last_debounce) <
        s.debounce_time :=
      of_decide_eq_true (Bool.and_eq_true_iff.mp h).1
    have h2 : (s.update raw now).1.noisy rest = true :=
      (Bool.and_eq_true_iff.mp h).2
    have hupd := update_within_window s raw now h1
    have hrec := ih (s.update raw now).1 h2
    constructor
    · simp only [SwitchControl.run]
      rw [hrec.1, hupd]
    · intro e he
      simp only [SwitchControl.run, List.mem_cons] at he
      rcases he with he | he
      · rw [he, hupd]
        simp
      · exact hrec.2 e he

theorem noise_rejection_witness :
    swSampleA.noisy [(10, false), (40, false), (55, true)] = true ∧
    (swSampleA.run [(10, false), (40, false), (55, true)]).1.switch_state =
      swSampleA.switch_state ∧
    ∀ e ∈ (swSampleA.run [(10, false), (40, false), (55, true)]).2,
      e ≠ EVENT_PRESSED ∧ e ≠ EVENT_RELEASED := by
  have h := noise_rejection swSampleA [(10, false), (40, false), (55, true)]
    (by decide)
  exact ⟨by decide, h.1, h.2⟩

/-! Claim theorems C1 and C3 (Machine dispatch and set_state) with their
witnesses. -/

/-- C1: the base `State::update` maps `EVENT_LONGPRESS` to `STATE_OFF` and
everything else to the stay-sentinel; every variant returns that non-sentinel
result unchanged; and a machine in any real state with a registered behavior
(and `STATE_OFF` registered) is in `STATE_OFF` right after
`Machine::update(EVENT_LONGPRESS)`. -/
theorem longpress_always_goes_off (m : Machine) (now : Nat)
    (h1 : m.current_state ≠ STATE_NONE)
    (h2 : m.current_state ≠ STATE_MAX)
    (h3 : m.registered m.current_state = true)
    (h4 : m.registered STATE_OFF = true) :
    (m.update EVENT_LONGPRESS now).current_state = STATE_OFF ∧
    State.update EVENT_LONGPRESS = STATE_OFF ∧
    (∀ ev, ev ≠ EVENT_LONGPRESS → State.update ev = STATE_NONE) ∧
    OffState.update EVENT_LONGPRESS = STATE_OFF ∧
    (∀ s bar, (StartupState.update s EVENT_LONGPRESS now bar).1 = STATE_OFF) ∧
    (∀ s btn bar total,
      (ProgramState.update s EVENT_LONGPRESS now btn bar total).2.1 = STATE_OFF) ∧
    (∀ s total bar,
      (TimerState.update s EVENT_LONGPRESS now total bar).2.1 = STATE_OFF) ∧
    (∀ s bar, (WaitState.update s EVENT_LONGPRESS now bar).2.1 = STATE_OFF) := by
  refine ⟨?_, rfl, ?_, rfl, ?_, ?_, ?_, ?_⟩
  · rcases m with ⟨cur, reg, offS, stS, prS, tiS, waS, tt, bar, bled, btn, trd⟩
    simp only [] at h1 h2 h3 h4
    cases cur with
    | STATE_NONE => exact absurd rfl h1
    | STATE_MAX => exact absurd rfl h2
    | STATE_OFF =>
      simp [Machine.update, Machine.set_state, OffState.update, State.update,
        h3, h4]
    | STATE_STARTUP =>
      simp [Machine.update, Machine.set_state, StartupState.update,
        State.update, StateID.toNat, h3, h4]
    | STATE_PROGRAM =>
      simp [Machine.update, Machine.set_state, ProgramState.update,
        State.update, StateID.toNat, h3, h4]
    | STATE_TIMER =>
      simp [Machine.update, Machine.set_state, TimerState.update,
        State.update, StateID.toNat, h3, h4]
    | STATE_WAIT =>
      simp [Machine.update, Machine.set_state, WaitState.update,
        State.update, StateID.toNat, h3, h4]
  · intro ev hev; simp [State.update, hev]
  · intro s bar; simp [StartupState.update, State.update]
  · intro s btn bar total; simp [ProgramState.update, State.update]
  · intro s total bar; simp [TimerState.update, State.update]
  · intro s bar; simp [WaitState.update, State.update]

/-- A sample machine: waiting-state machine with every behavior registered. -/
def machSample : Machine :=
  { current_state := STATE_WAIT, registered := fun _ => true,
    offS := { state_start_time := 0 },
    startupS := { state_start_time := 0 },
    programS := { state_start_time := 0, program_time := 3, bar_time := 1800 },
    timerS := { state_start_time := 0, last_update := 0 },
    waitS := { state_start_time := 0, last_update := 0, sweep_led := 0,
               sweep_dir := 1 },
    total_time := 0, bar := setLevel 0, button_led := true,
    button := swSampleB, timer_render := none }

theorem longpress_always_goes_off_witness :
    (machSample.update EVENT_LONGPRESS 7).current_state = STATE_OFF :=
  (longpress_always_goes_off machSample 7 (by decide) (by decide) rfl rfl).1

/-- C3: `Machine::set_state` is a strict no-op (whole machine unchanged,
hence current id and every entry timestamp unchanged) when the target equals
the current id, is the `STATE_NONE` sentinel, is at or beyond the enumerated
range, or has no registered behavior; in exactly the remaining case the
current id becomes the target and the target behavior's `enter` hook runs,
stamping its entry timestamp with the current time. -/
theorem set_state_noop_or_enter (m : Machine) (newstate : StateID) (now : Nat) :
    ((newstate = m.current_state ∨ newstate = STATE_NONE ∨
        ¬ newstate.toNat < StateID.STATE_MAX.toNat ∨
        m.registered newstate = false) →
      m.set_state newstate now = m) ∧
    (newstate ≠ m.current_state → newstate ≠ STATE_NONE →
     newstate.toNat < StateID.STATE_MAX.toNat → m.registered newstate = true →
      (m.set_state newstate now).current_state = newstate ∧
      (m.set_state newstate now).entry_time newstate = now) := by
  constructor
  · intro hd
    unfold Machine.set_state
    rw [if_neg]
    rintro ⟨a, b, c, d⟩
    rcases hd with h | h | h | h
    · exact a h
    · exact b h
    · exact h c
    · rw [d] at h; exact Bool.true_eq_false.mp h
  · intro h1 h2 h3 h4
    unfold Machine.set_state
    rw [if_pos ⟨h1, h2, h3, h4⟩]
    cases newstate with
    | STATE_NONE => exact absurd rfl h2
    | STATE_MAX => simp [StateID.toNat] at h3
    | STATE_OFF => simp [Machine.entry_time, OffState.enter]
    | STATE_STARTUP => simp [Machine.entry_time, StartupState.enter]
    | STATE_PROGRAM => simp [Machine.entry_time, ProgramState.enter]
    | STATE_TIMER => simp [Machine.entry_time, TimerState.enter]
    | STATE_WAIT => simp [Machine.entry_time, WaitState.enter]

theorem set_state_noop_or_enter_witness :
    machSample.set_state STATE_NONE 7 = machSample ∧
    machSample.set_state STATE_WAIT 7 = machSample ∧
    machSample.set_state STATE_MAX 7 = machSample ∧
    (machSample.set_state STATE_PROGRAM 7).current_state = STATE_PROGRAM ∧
    (machSample.set_state STATE_PROGRAM 7).entry_time STATE_PROGRAM = 7 :=
  ⟨(set_state_noop_or_enter machSample STATE_NONE 7).1 (Or.inr (Or.inl rfl)),
   (set_state_noop_or_enter machSample STATE_WAIT 7).1 (Or.inl rfl),
   (set_state_noop_or_enter machSample STATE_MAX 7).1
     (Or.inr (Or.inr (Or.inl (by decide)))),
   ((set_state_noop_or_enter machSample STATE_PROGRAM 7).2 (by decide)
     (by decide) (by decide) rfl).1,
   ((set_state_noop_or_enter machSample STATE_PROGRAM 7).2 (by decide)
     (by decide) (by decide) rfl).2⟩

/-! Claim theorems C7 and C8 (Program counter, Startup rendering) with their
witnesses. -/

/-- The `ProgramState` returned by `update` changes only on a press, where
the counter is incremented with wrap above 10. -/
theorem program_update_fst (s : ProgramState) (ev : Event) (now : Nat)
    (btn : SwitchControl) (bar : Bar) (total : Nat) :
    (ProgramState.update s ev now btn bar total).1 =
      if ev = EVENT_PRESSED then
        { s with program_time :=
            if s.program_time + 1 > 10 then 1 else s.program_time + 1 }
      else s := by
  unfold ProgramState.update State.update
  cases ev <;> simp <;> split_ifs <;> rfl

/-- Field-level consequence: how one tick changes the counter. -/
theorem program_update_pt (s : ProgramState) (ev : Event) (now : Nat)
    (btn : SwitchControl) (bar : Bar) (total : Nat) :
    (ProgramState.update s ev now btn bar total).1.program_time =
      if ev = EVENT_PRESSED then
        (if s.program_time + 1 > 10 then 1 else s.program_time + 1)
      else s.program_time := by
  rw [program_update_fst]
  split_ifs <;> rfl

/-- The counter range is preserved over any run of Program ticks. -/
theorem program_run_range :
    ∀ (ticks : List (Event × Nat × SwitchControl)) (s : ProgramState)
      (bar : Bar) (total : Nat), 1 ≤ s.program_time → s.program_time ≤ 10 →
      1 ≤ (ProgramState.run s bar total ticks).1.program_time ∧
      (ProgramState.run s bar total ticks).1.program_time ≤ 10 := by
  intro ticks
  induction ticks with
  | nil => intro s bar total hl hu; exact ⟨hl, hu⟩
  | cons t rest ih =>
    intro s bar total hl hu
    rcases t with ⟨ev, now, btn⟩
    simp only [ProgramState.run]
    apply ih
    · rw [program_update_pt]; split_ifs <;> omega
    · rw [program_update_pt]; split_ifs <;> omega

/-- C7: `ProgramState::enter` resets the counter to 1; each press increments
it by one except that 10 wraps to 1; and over every run of ticks starting
from `enter`, the counter stays within 1..10. -/
theorem program_counter_cycles :
    (∀ (s : ProgramState) (now : Nat),
      (s.enter now).1.program_time = 1) ∧
    (∀ (s : ProgramState) (ev : Event) (now : Nat) (btn : SwitchControl)
       (bar : Bar) (total : Nat), 1 ≤ s.program_time → s.program_time ≤ 10 →
      (1 ≤ (ProgramState.update s ev now btn bar total).1.program_time ∧
       (ProgramState.update s ev now btn bar total).1.program_time ≤ 10) ∧
      (ev = EVENT_PRESSED →
        (ProgramState.update s ev now btn bar total).1.program_time =
          if s.program_time = 10 then 1 else s.program_time + 1)) ∧
    (∀ (s : ProgramState) (now : Nat) (bar : Bar) (total : Nat)
       (ticks : List (Event × Nat × SwitchControl)),
      1 ≤ (ProgramState.run (s.enter now).1 bar total ticks).1.program_time ∧
      (ProgramState.run (s.enter now).1 bar total ticks).1.program_time ≤ 10) := by
  refine ⟨fun s now => rfl, ?_, ?_⟩
  · intro s ev now btn bar total hl hu
    constructor
    · constructor
      · rw [program_update_pt]; split_ifs <;> omega
      · rw [program_update_pt]; split_ifs <;> omega
    · intro hev
      rw [program_update_pt, if_pos hev]
      split_ifs <;> omega
  · intro s now bar total ticks
    exact program_run_range ticks (s.enter now).1 bar total (by rfl) (by simp [ProgramState.enter])

theorem program_counter_cycles_witness :
    ((ProgramState.update
        { state_start_time := 0, program_time := 10, bar_time := 1800 }
        EVENT_PRESSED 100 swSampleB (setLevel 0) 0).1.program_time = 1) ∧
    ((ProgramState.update
        { state_start_time := 0, program_time := 4, bar_time := 1800 }
        EVENT_PRESSED 100 swSampleB (setLevel 0) 0).1.program_time = 5) := by
  have h10 := (program_counter_cycles.2.1
    { state_start_time := 0, program_time := 10, bar_time := 1800 }
    EVENT_PRESSED 100 swSampleB (setLevel 0) 0 (by decide) (by decide)).2 rfl
  have h4 := (program_counter_cycles.2.1
    { state_start_time := 0, program_time := 4, bar_time := 1800 }
    EVENT_PRESSED 100 swSampleB (setLevel 0) 0 (by decide) (by decide)).2 rfl
  exact ⟨by simpa using h10, by simpa using h4⟩

/-- Segment `i` of `setLevel n` is lit exactly when `i < n`, equivalently
`i < min n 10` for the 10 physical segments: the rendered level is the
requested one clamped to the bar's capacity. -/
theorem setLevel_getD (n i : Nat) (h : i < 10) :
    (setLevel n).getD i 0 = if i < min n 10 then 255 else 0 := by
  unfold setLevel
  rw [List.getD_eq_getElem?_getD, List.getElem?_map, List.getElem?_range h]
  simp only [Option.map_some', Option.getD_some]
  split_ifs <;> omega

/-- C8: on a Startup tick (longpress aside, which the base rule preempts to
Off) with `state_time() < 1500`, the update stays in Startup and renders
`(state_time() + 10) / 100`, which the 10-segment bar clamps to at most 10
lit segments; once `state_time() >= 1500` it requests `STATE_PROGRAM`
without rendering. -/
theorem startup_render_and_transition (s : StartupState) (ev : Event)
    (now : Nat) (bar : Bar) (hev : ev ≠ EVENT_LONGPRESS) :
    (State.state_time now s.state_start_time < 1500 →
      StartupState.update s ev now bar =
        (STATE_NONE,
          setLevel ((State.state_time now s.state_start_time + 10) / 100)) ∧
      (∀ i, i < 10 →
        (setLevel ((State.state_time now s.state_start_time + 10) / 100)).getD
            i 0 =
          if i < min ((State.state_time now s.state_start_time + 10) / 100) 10
          then 255 else 0) ∧
      min ((State.state_time now s.state_start_time + 10) / 100) 10 ≤ 10) ∧
    (State.state_time now s.state_start_time ≥ 1500 →
      StartupState.update s ev now bar = (STATE_PROGRAM, bar)) := by
  constructor
  · intro hlt
    refine ⟨?_, fun i hi => setLevel_getD _ i hi, by omega⟩
    unfold StartupState.update State.update
    rw [if_neg (by simp [hev]), if_neg (by omega)]
  · intro hge
    unfold StartupState.update State.update
    rw [if_neg (by simp [hev]), if_pos hge]

theorem startup_render_and_transition_witness :
    (StartupState.update { state_start_time := 0 } EVENT_NONE 1400
        (setLevel 0)).2 = setLevel 14 ∧
    (StartupState.update { state_start_time := 0 } EVENT_NONE 1400
        (setLevel 0)).2.getD 9 0 = 255 ∧
    StartupState.update { state_start_time := 0 } EVENT_NONE 1600
        (setLevel 0) = (STATE_PROGRAM, setLevel 0) := by
  have h := startup_render_and_transition { state_start_time := 0 } EVENT_NONE
    1400 (setLevel 0) (by decide)
  have hlt : State.state_time 1400 0 < 1500 := by decide
  have h2 := startup_render_and_transition { state_start_time := 0 } EVENT_NONE
    1600 (setLevel 0) (by decide)
  refine ⟨?_, by decide, h2.2 (by decide)⟩
  have := (h.1 hlt).1
  rw [this]
  decide

/-! Claim theorems C2, C9, C10 with their witnesses. -/

/-- On the tick where Program requests `STATE_TIMER`, the shared budget it
wrote is `program_time * (bar_time * 1000)` in `unsigned long` arithmetic. -/
theorem program_update_timer_total (s : ProgramState) (ev : Event) (now : Nat)
    (btn : SwitchControl) (bar : Bar) (total : Nat)
    (h : (ProgramState.update s ev now btn bar total).2.1 = STATE_TIMER) :
    (ProgramState.update s ev now btn bar total).2.2.2 =
      ((ProgramState.update s ev now btn bar total).1.program_time *
        ((s.bar_time * 1000) % W)) % W := by
  unfold ProgramState.update State.update at *
  simp only [] at h ⊢
  split_ifs at h ⊢ <;> simp_all

/-- C2: the budget written at the Program-to-Timer transition is exactly
`selected_count * bar_time * 1000` (`unsigned long` arithmetic; exact with
the default `bar_time = 1800` and the counter in its 1..10 range), and
Timer requests `STATE_WAIT` exactly when `state_time() > *total_time` —
never on a tick with `state_time() <= *total_time`, and on every
non-longpress tick with `state_time() > *total_time` (a longpress is
preempted to Off by the base rule). -/
theorem budget_and_timer_transition :
    (∀ (s : ProgramState) (ev : Event) (now : Nat) (btn : SwitchControl)
       (bar : Bar) (total : Nat),
      (ProgramState.update s ev now btn bar total).2.1 = STATE_TIMER →
        (ProgramState.update s ev now btn bar total).2.2.2 =
          ((ProgramState.update s ev now btn bar total).1.program_time *
            ((s.bar_time * 1000) % W)) % W ∧
        (s.bar_time = 1800 → s.program_time ≤ 10 →
          (ProgramState.update s ev now btn bar total).2.2.2 =
            (ProgramState.update s ev now btn bar total).1.program_time *
              1800000)) ∧
    (∀ (s : TimerState) (ev : Event) (now : Nat) (total : Nat) (bar : Bar),
      ((TimerState.update s ev now total bar).2.1 = STATE_WAIT →
        State.state_time now s.state_start_time > total) ∧
      (ev ≠ EVENT_LONGPRESS →
        ((TimerState.update s ev now total bar).2.1 = STATE_WAIT ↔
          State.state_time now s.state_start_time > total))) := by
  constructor
  · intro s ev now btn bar total h
    refine ⟨program_update_timer_total s ev now btn bar total h, ?_⟩
    intro hbt hle
    rw [program_update_timer_total s ev now btn bar total h, hbt]
    have hpt := program_update_pt s ev now btn bar total
    have hx : (ProgramState.update s ev now btn bar total).1.program_time ≤ 10 := by
      rw [hpt]; split_ifs <;> omega
    have hmod : (1800 * 1000) % W = 1800000 := by norm_num [W_eq]
    rw [hmod]
    rw [W_eq] at *
    exact Nat.mod_eq_of_lt (by omega)
  · intro s ev now total bar
    by_cases hev : ev = EVENT_LONGPRESS
    · constructor
      · unfold TimerState.update State.update
        simp [hev]
      · intro hc; exact absurd hev hc
    · have hsnd : (TimerState.update s ev now total bar).2.1 =
          (if State.state_time now s.state_start_time > total then STATE_WAIT
           else STATE_NONE) := by
        unfold TimerState.update State.update
        simp only []
        simp [hev]
        split_ifs <;> simp_all
      rw [hsnd]
      constructor
      · intro hw
        split_ifs at hw with h1
        exact h1
      · intro h2
        simp [h2]

theorem budget_and_timer_transition_witness :
    (ProgramState.update
        { state_start_time := 0, program_time := 3, bar_time := 1800 }
        EVENT_NONE 5000 swSampleA (setLevel 0) 0).2.1 = STATE_TIMER ∧
    (ProgramState.update
        { state_start_time := 0, program_time := 3, bar_time := 1800 }
        EVENT_NONE 5000 swSampleA (setLevel 0) 0).2.2.2 = 5400000 ∧
    (TimerState.update { state_start_time := 0, last_update := 0 }
        EVENT_NONE 10001 10000 (setLevel 0)).2.1 = STATE_WAIT ∧
    (TimerState.update { state_start_time := 0, last_update := 0 }
        EVENT_NONE 10000 10000 (setLevel 0)).2.1 ≠ STATE_WAIT := by
  have hP := budget_and_timer_transition.1
    { state_start_time := 0, program_time := 3, bar_time := 1800 }
    EVENT_NONE 5000 swSampleA (setLevel 0) 0 (by decide)
  have hT := (budget_and_timer_transition.2
    { state_start_time := 0, last_update := 0 } EVENT_NONE 10001 10000
    (setLevel 0)).2 (by decide)
  have hT2 := (budget_and_timer_transition.2
    { state_start_time := 0, last_update := 0 } EVENT_NONE 10000 10000
    (setLevel 0)).2 (by decide)
  refine ⟨by decide, ?_, hT.mpr (by decide), ?_⟩
  · have := hP.2 rfl (by decide)
    rw [this]
    decide
  · intro hc
    exact absurd (hT2.mp hc) (by decide)

/-- The invariant of the Wait-state sweep: the head stays within indices
0..9, the direction is one of +1 and -1, and at each end the direction already
points back inward. -/
def WaitInv (s : WaitState) : Prop :=
  0 ≤ s.sweep_led ∧ s.sweep_led ≤ 9 ∧
  (s.sweep_dir = 1 ∨ s.sweep_dir = -1) ∧
  (s.sweep_led = 9 → s.sweep_dir = -1) ∧
  (s.sweep_led = 0 → s.sweep_dir = 1)

/-- One Wait tick preserves the sweep invariant. -/
theorem wait_update_inv (s : WaitState) (ev : Event) (now : Nat) (bar : Bar)
    (h : WaitInv s) : WaitInv (WaitState.update s ev now bar).1 := by
  unfold WaitState.update State.update
  unfold WaitInv at *
  split_ifs <;> simp_all <;> omega

/-- Any run of Wait ticks preserves the sweep invariant. -/
theorem wait_run_inv (ticks : List (Event × Nat)) (s : WaitState) (bar : Bar)
    (h : WaitInv s) : WaitInv (WaitState.run s bar ticks).1 := by
  induction ticks generalizing s bar with
  | nil => exact h
  | cons t rest ih =>
    rcases t with ⟨ev, now⟩
    exact ih _ _ (wait_update_inv s ev now bar h)

/-- C9: Wait's `enter` starts the sweep at head 0, direction +1; in every
state reachable from there the head stays within 0..9; and on an advancing
tick the direction is flipped exactly at the two boundary indices (+1 becomes
-1 when the head reaches 9, -1 becomes +1 when it reaches 0) and is unchanged
elsewhere. -/
theorem wait_sweep_bounds :
    (∀ (s : WaitState) (now : Nat),
      (s.enter now).1.sweep_led = 0 ∧ (s.enter now).1.sweep_dir = 1 ∧
      WaitInv (s.enter now).1) ∧
    (∀ (s : WaitState) (ev : Event) (now : Nat) (bar : Bar),
      WaitInv s → WaitInv (WaitState.update s ev now bar).1) ∧
    (∀ (s : WaitState) (ev : Event) (now : Nat) (bar : Bar), WaitInv s →
      ev ≠ EVENT_PRESSED → ev ≠ EVENT_LONGPRESS →
      sub32 now s.last_update > 100 →
      (WaitState.update s ev now bar).1.sweep_led =
        s.sweep_led + s.sweep_dir ∧
      (s.sweep_led + s.sweep_dir ≠ 9 → s.sweep_led + s.sweep_dir ≠ 0 →
        (WaitState.update s ev now bar).1.sweep_dir = s.sweep_dir) ∧
      (s.sweep_led + s.sweep_dir = 9 →
        s.sweep_dir = 1 ∧ (WaitState.update s ev now bar).1.sweep_dir = -1) ∧
      (s.sweep_led + s.sweep_dir = 0 →
        s.sweep_dir = -1 ∧ (WaitState.update s ev now bar).1.sweep_dir = 1)) ∧
    (∀ (s : WaitState) (now : Nat) (bar : Bar) (ticks : List (Event × Nat)),
      WaitInv (WaitState.run (s.enter now).1 bar ticks).1) := by
  have henter : ∀ (s : WaitState) (now : Nat),
      (s.enter now).1.sweep_led = 0 ∧ (s.enter now).1.sweep_dir = 1 ∧
      WaitInv (s.enter now).1 := by
    intro s now
    refine ⟨rfl, rfl, ?_⟩
    unfold WaitInv WaitState.enter
    simp
  refine ⟨henter, wait_update_inv, ?_, ?_⟩
  · intro s ev now bar h hp hl hgate
    unfold WaitState.update State.update
    unfold WaitInv at h
    simp only []
    simp [hp, hl, hgate]
    split_ifs <;> simp_all <;> omega
  · intro s now bar ticks
    exact wait_run_inv ticks (s.enter now).1 bar (henter s now).2.2

theorem wait_sweep_bounds_witness :
    WaitInv (WaitState.update
      { state_start_time := 0, last_update := 0, sweep_led := 8,
        sweep_dir := 1 } EVENT_NONE 200 (setLevel 0)).1 ∧
    (WaitState.update
      { state_start_time := 0, last_update := 0, sweep_led := 8,
        sweep_dir := 1 } EVENT_NONE 200 (setLevel 0)).1.sweep_led = 9 ∧
    (WaitState.update
      { state_start_time := 0, last_update := 0, sweep_led := 8,
        sweep_dir := 1 } EVENT_NONE 200 (setLevel 0)).1.sweep_dir = -1 := by
  have hinv : WaitInv
      { state_start_time := 0, last_update := 0, sweep_led := 8,
        sweep_dir := 1 } := by
    unfold WaitInv; refine ⟨by decide, by decide, Or.inl rfl, ?_, ?_⟩ <;>
      intro h <;> exact absurd h (by decide)
  have h := wait_sweep_bounds.2.2.1
    { state_start_time := 0, last_update := 0, sweep_led := 8, sweep_dir := 1 }
    EVENT_NONE 200 (setLevel 0) hinv (by decide) (by decide) (by decide)
  refine ⟨wait_sweep_bounds.2.1
    { state_start_time := 0, last_update := 0, sweep_led := 8, sweep_dir := 1 }
    EVENT_NONE 200 (setLevel 0) hinv, ?_, ?_⟩
  · rw [h.1]; decide
  · exact (h.2.2.1 (by decide)).2

/-- C10: for every starting head index in 0..9 and direction in {-1, +1},
the trail loop of `WaitState::sweep_leds` terminates: the brightness starts
at 255 and is divided by 3 each iteration, reaching 0 after exactly 6
iterations, so fuel 6 already computes the final LED array; and every entry
of the resulting 10-entry array stays within 0..255. -/
theorem sweep_trail_terminates_bounded (led dir : Int)
    (h0 : 0 ≤ led) (h9 : led ≤ 9) (hdir : dir = -1 ∨ dir = 1) :
    trailSteps 255 = 6 ∧
    sweepLoopF (trailSteps 255) (List.replicate 10 0) led (dir * -1) 255 =
      WaitState.sweep_leds led dir ∧
    (WaitState.sweep_leds led dir).length = 10 ∧
    (∀ x ∈ WaitState.sweep_leds led dir, x ≤ 255) := by
  interval_cases led <;> rcases hdir with rfl | rfl <;> decide

theorem sweep_trail_terminates_bounded_witness :
    trailSteps 255 = 6 ∧
    (WaitState.sweep_leds 0 1).length = 10 ∧
    ∀ x ∈ WaitState.sweep_leds 0 1, x ≤ 255 := by
  have h := sweep_trail_terminates_bounded 0 1 (by decide) (by decide)
    (Or.inr rfl)
  exact ⟨h.1, h.2.2.1, h.2.2.2⟩

end Laundry



